import Mathlib

/-!
# Verification of the voice-to-image pipeline (`src/app.py`)

Shallow embedding of the Streamlit application in `src/app.py`.  The
program is a single script that is re-executed top to bottom on every
user trigger; all external effects (speech recognition, the Stability
image API, the Gemini text API, the widget framework) are modelled as
explicit inputs, and the script run is a pure function from the prior
session state, the environment and the trigger events to the new
session state together with the trace of adapter calls made during the
run.
-/

/-- The three sentinel error strings produced by the speech path and
tested by the gate at `app.py` line 145. -/
def sentinelStrings : List String :=
  ["Could not understand audio", "API unavailable",
   "Error recording audio. Please try again."]

/-- A decoded bitmap, abstracted: the pipeline only stores and moves it. -/
structure Bitmap where
  data : String
deriving DecidableEq, Repr

/-- Outcome of the `recognize_google` call inside `transcribe_audio`
(`app.py` lines 36-42): recognized text, `sr.UnknownValueError`, or
`sr.RequestError`. -/
inductive SpeechResult where
  | recognized (text : String)
  | unknownValue
  | requestError
deriving DecidableEq, Repr

/-- Function `transcribe_audio` (`app.py` lines 32-42): maps the
speech-service outcome to the returned string. -/
def transcribe_audio : SpeechResult → String
  | .recognized t => t
  | .unknownValue => "Could not understand audio"
  | .requestError => "API unavailable"

/-- What happens inside the `try` block of the Record Voice Command
handler (`app.py` lines 117-135), after the temporary file has been
created by `tempfile.NamedTemporaryFile` (the first statement of the
block):
* `deviceFault`: microphone access, `adjust_for_ambient_noise`,
  `listen` (e.g. its 5-second timeout) or the file write raises;
* `transcribeFault`: `transcribe_audio` raises an exception other than
  the two it catches (e.g. `sr.AudioFile` cannot open the WAV);
* `captured r`: recording and `transcribe_audio` both complete, with
  speech-service outcome `r`. -/
inductive CaptureOutcome where
  | deviceFault
  | transcribeFault
  | captured (r : SpeechResult)
deriving DecidableEq, Repr

/-- Result of the Record Voice Command handler (`app.py` lines
116-138): the string written to `st.session_state.transcription`, and
whether the temporary WAV file still exists on disk afterwards. -/
structure RecordResult where
  transcription : String
  tempFileExists : Bool
deriving DecidableEq, Repr

/-- The Record Voice Command handler (`app.py` lines 116-138).
`os.remove(temp_audio_path)` (line 135) sits inside the `try` block
after transcription, so it runs only when neither recording nor
transcription raised; the `except` clause (lines 136-138) writes the
sentinel string and performs no cleanup. -/
def recordHandler : CaptureOutcome → RecordResult
  | .deviceFault =>
      { transcription := "Error recording audio. Please try again."
        tempFileExists := true }
  | .transcribeFault =>
      { transcription := "Error recording audio. Please try again."
        tempFileExists := true }
  | .captured r =>
      { transcription := transcribe_audio r
        tempFileExists := false }

/-- Resolution of the Stability credential (`app.py` lines 47-54):
the secrets store first, else the sidebar text input, which counts
only if non-empty (`if not STABILITY_API_KEY`). -/
def resolveStabilityKey (secrets : Option String) (sidebarInput : String) :
    Option String :=
  match secrets with
  | some k => some k
  | none => if sidebarInput = "" then none else some sidebarInput

/-- The image-service payload reachable on a 200 response (`app.py`
lines 76-79): either the JSON parse / base64 decode / `Image.open`
chain succeeds and yields a bitmap, or some step raises with a
message. -/
inductive ImagePayload where
  | decoded (img : Bitmap)
  | decodeError (msg : String)
deriving DecidableEq, Repr

/-- An HTTP response from the image service: status code, raw body
text, and the payload obtained when the success branch decodes it. -/
structure ImageServiceResponse where
  status : Nat
  body : String
  payload : ImagePayload
deriving DecidableEq, Repr

/-- Behaviour of one `requests.post` to the image service (`app.py`
line 74): the call itself raises, or a response comes back. -/
inductive ImageServiceBehavior where
  | networkError (e : String)
  | response (r : ImageServiceResponse)
deriving DecidableEq, Repr

/-- Observable outcome of one `generate_image` call (`app.py` lines
45-87): whether `st.stop()` halted the script, whether the HTTP POST
was issued, the `st.error` banners emitted, and the returned value
(`None` on every failure path). -/
structure GenImageOutcome where
  halted : Bool
  httpIssued : Bool
  errors : List String
  result : Option Bitmap
deriving DecidableEq, Repr

/-- Function `generate_image` (`app.py` lines 45-87), given the resolved
credential and the service behaviour.  Missing credential hits
`st.stop()` before the POST; a non-200 status emits
`st.error(f"Error: {status}")` and, when the body is non-empty,
`st.error(f"Details: {body}")`, then returns `None`; any exception is
caught and reported as `Error generating image: ...` with `None`. -/
def generate_image (key : Option String) (svc : ImageServiceBehavior) :
    GenImageOutcome :=
  match key with
  | none => { halted := true, httpIssued := false, errors := [], result := none }
  | some _ =>
    match svc with
    | .networkError e =>
        { halted := false, httpIssued := true
          errors := ["Error generating image: " ++ e], result := none }
    | .response r =>
        if r.status = 200 then
          match r.payload with
          | .decoded img =>
              { halted := false, httpIssued := true, errors := [], result := some img }
          | .decodeError e =>
              { halted := false, httpIssued := true
                errors := ["Error generating image: " ++ e], result := none }
        else
          { halted := false, httpIssued := true
            errors := ["Error: " ++ toString r.status] ++
              (if r.body = "" then [] else ["Details: " ++ r.body])
            result := none }

/-- Behaviour of one `model.generate_content` call (`app.py` line 92):
returns text, or raises. -/
inductive GeminiBehavior where
  | ok (text : String)
  | raises (e : String)
deriving DecidableEq, Repr

/-- Observable outcome of one `get_information` call: the `st.error`
banners emitted and the returned string. -/
structure InfoOutcome where
  errors : List String
  result : String
deriving DecidableEq, Repr

/-- Function `get_information` (`app.py` lines 90-96): returns the service text,
or catches any exception, emits an error banner, and returns the fixed
fallback string. -/
def get_information : GeminiBehavior → InfoOutcome
  | .ok t => { errors := [], result := t }
  | .raises e =>
      { errors := ["Error getting information: " ++ e]
        result := "Could not retrieve information at this time." }

/-- Model of `st.session_state` as used by the script: each field is `none`
while its key is absent.  `image` stores the raw return value of
`generate_image`, which can itself be `None` (`some none` models the
key being present and holding `None`). -/
structure SessionState where
  transcription : Option String := none
  image : Option (Option Bitmap) := none
  info : Option String := none
deriving DecidableEq, Repr

/-- The external world for one script run: availability of the Gemini
key (`app.py` lines 16-23), the Stability secret and sidebar input,
and the behaviour of the two services as a function of the prompt sent. -/
structure Env where
  geminiKey : Bool
  stabilitySecrets : Option String
  stabilitySidebar : String
  imageService : String → ImageServiceBehavior
  geminiService : String → GeminiBehavior

/-- The user-trigger events of one script run: the two buttons, the
capture outcome when recording fires, and the manual text field. -/
structure Events where
  recordPressed : Bool
  capture : CaptureOutcome
  generatePressed : Bool
  manualPrompt : String

/-- An invocation of one of the two generation adapters, with the
prompt it was given. -/
inductive AdapterCall where
  | image (prompt : String)
  | describe (prompt : String)
deriving DecidableEq, Repr

/-- Result of running the script once: final session state, the
adapter invocations in order, the prompts for which an HTTP POST to
the image service was actually issued, and whether `st.stop()` ended
the run early. -/
structure RunResult where
  state : SessionState
  calls : List AdapterCall
  httpImagePosts : List String
  halted : Bool
deriving Repr

/-- One generation block (`app.py` lines 148-151 and 173-174): invoke
`generate_image` with `prompt`; if it halts (missing credential) the
script ends with `image`/`info` unwritten; otherwise write `image`,
invoke `get_information`, write `info`. -/
def runGeneration (env : Env) (prompt : String) (s : SessionState)
    (calls : List AdapterCall) (posts : List String) : RunResult :=
  let key := resolveStabilityKey env.stabilitySecrets env.stabilitySidebar
  let gi := generate_image key (env.imageService prompt)
  let calls := calls ++ [AdapterCall.image prompt]
  let posts := posts ++ (if gi.httpIssued then [prompt] else [])
  if gi.halted then
    { state := s, calls := calls, httpImagePosts := posts, halted := true }
  else
    let s := { s with image := some gi.result }
    let inf := get_information (env.geminiService prompt)
    { state := { s with info := some inf.result }
      calls := calls ++ [AdapterCall.describe prompt]
      httpImagePosts := posts
      halted := false }

/-- Session state after the Record Voice Command handler (`app.py`
lines 116-138): when the button fired, the handler result is written
to `transcription`; otherwise the state is untouched. -/
def afterRecord (ev : Events) (s0 : SessionState) : SessionState :=
  if ev.recordPressed then
    { s0 with transcription := some (recordHandler ev.capture).transcription }
  else s0

/-- The display block with its sentinel gate (`app.py` lines 141-151):
when `transcription` is present and not a sentinel, run generation
with it; otherwise no adapter is touched. -/
def gateBlock (env : Env) (s1 : SessionState) : RunResult :=
  match s1.transcription with
  | some t =>
      if t ∈ sentinelStrings then
        { state := s1, calls := [], httpImagePosts := [], halted := false }
      else runGeneration env t s1 [] []
  | none => { state := s1, calls := [], httpImagePosts := [], halted := false }

/-- The manual block (`app.py` lines 169-174), which only runs if the
script was not already halted: when the Generate from Text button
fired with a non-empty prompt, write the prompt to `transcription` and
run generation with it. -/
def manualBlock (env : Env) (ev : Events) (r2 : RunResult) : RunResult :=
  if r2.halted then r2
  else if ev.generatePressed ∧ ev.manualPrompt ≠ "" then
    runGeneration env ev.manualPrompt
      { r2.state with transcription := some ev.manualPrompt }
      r2.calls r2.httpImagePosts
  else r2

/-- One full script run (`app.py` top to bottom).  Line 23 halts the
whole script when no Gemini key is available; otherwise the record
handler, the gated display block and the manual block run in
sequence. -/
def runScript (env : Env) (ev : Events) (s0 : SessionState) : RunResult :=
  if env.geminiKey = false then
    { state := s0, calls := [], httpImagePosts := [], halted := true }
  else manualBlock env ev (gateBlock env (afterRecord ev s0))

/-! ## Concrete environments used by the closed theorems -/

/-- The empty session state at session start. -/
def emptySession : SessionState := {}

/-- A benign environment: both keys available, the image service
returns a decodable 200 response, the description service returns
text. -/
def env0 : Env :=
  { geminiKey := true
    stabilitySecrets := some "sk"
    stabilitySidebar := ""
    imageService := fun _ =>
      .response { status := 200, body := "", payload := .decoded { data := "img" } }
    geminiService := fun _ => .ok "some facts" }

/-- Like `env0` but with no Stability credential available from either
the secrets store or the sidebar input. -/
def envNoKey : Env :=
  { env0 with stabilitySecrets := none, stabilitySidebar := "" }

/-- Like `env0` but with a description service that always raises. -/
def envInfoErr : Env :=
  { env0 with geminiService := fun _ => .raises "boom" }

/-! ## Helper lemmas about the adapters -/

/-- With no credential, `generate_image` halts at `st.stop()` with no
HTTP request issued. -/
theorem generate_image_none (svc : ImageServiceBehavior) :
    generate_image none svc =
      { halted := true, httpIssued := false, errors := [], result := none } := rfl

/-- With a credential present, `generate_image` never halts. -/
theorem generate_image_some_not_halted (k : String) (svc : ImageServiceBehavior) :
    (generate_image (some k) svc).halted = false := by
  obtain e | ⟨st, body, pl⟩ := svc
  · rfl
  · unfold generate_image
    dsimp only
    split
    · obtain img | e := pl <;> rfl
    · rfl

/-- With a credential present, `generate_image` always issues the POST. -/
theorem generate_image_some_http (k : String) (svc : ImageServiceBehavior) :
    (generate_image (some k) svc).httpIssued = true := by
  obtain e | ⟨st, body, pl⟩ := svc
  · rfl
  · unfold generate_image
    dsimp only
    split
    · obtain img | e := pl <;> rfl
    · rfl

/-- A generation block never changes the `transcription` field. -/
theorem runGeneration_transcription (env : Env) (p : String) (s : SessionState)
    (c : List AdapterCall) (posts : List String) :
    (runGeneration env p s c posts).state.transcription = s.transcription := by
  unfold runGeneration
  dsimp only
  split <;> rfl

/-- With a credential present, a generation block appends exactly one
image call followed by one describe call and does not halt. -/
theorem runGeneration_calls_some (env : Env) (p : String) (s : SessionState)
    (c : List AdapterCall) (posts : List String) (k : String)
    (hk : resolveStabilityKey env.stabilitySecrets env.stabilitySidebar = some k) :
    (runGeneration env p s c posts).calls =
        c ++ [AdapterCall.image p, AdapterCall.describe p] ∧
    (runGeneration env p s c posts).halted = false := by
  unfold runGeneration
  simp only [hk, generate_image_some_not_halted, Bool.false_eq_true, if_false, ite_false]
  simp

/-- With no credential, a generation block records the image-adapter
invocation, issues no POST, leaves the state as given, and halts. -/
theorem runGeneration_no_key (env : Env) (p : String) (s : SessionState)
    (c : List AdapterCall) (posts : List String)
    (hk : resolveStabilityKey env.stabilitySecrets env.stabilitySidebar = none) :
    runGeneration env p s c posts =
      { state := s, calls := c ++ [AdapterCall.image p]
        httpImagePosts := posts, halted := true } := by
  unfold runGeneration
  simp [hk, generate_image_none]

/-! ## Helper lemmas about the script blocks -/

/-- With the Gemini key available, a script run is the composition of
the three blocks. -/
theorem runScript_eq (env : Env) (ev : Events) (s0 : SessionState)
    (hg : env.geminiKey = true) :
    runScript env ev s0 = manualBlock env ev (gateBlock env (afterRecord ev s0)) := by
  unfold runScript
  rw [if_neg (by simp [hg])]

/-- When the record button fired, the handler result is stored. -/
theorem afterRecord_record (ev : Events) (s0 : SessionState)
    (hr : ev.recordPressed = true) :
    afterRecord ev s0 =
      { s0 with transcription := some (recordHandler ev.capture).transcription } := by
  unfold afterRecord
  rw [if_pos hr]

/-- When the record button did not fire, the state is untouched. -/
theorem afterRecord_skip (ev : Events) (s0 : SessionState)
    (hr : ev.recordPressed = false) :
    afterRecord ev s0 = s0 := by
  unfold afterRecord
  rw [if_neg (by simp [hr])]

/-- The display block never changes the `transcription` field. -/
theorem gateBlock_transcription (env : Env) (s1 : SessionState) :
    (gateBlock env s1).state.transcription = s1.transcription := by
  unfold gateBlock
  rcases hs : s1.transcription with _ | t
  · exact hs
  · dsimp only
    split
    · exact hs
    · rw [runGeneration_transcription]
      exact hs

/-- When `transcription` is absent or a sentinel, the display block
touches nothing. -/
theorem gateBlock_skip (env : Env) (s1 : SessionState)
    (h : ∀ t, s1.transcription = some t → t ∈ sentinelStrings) :
    gateBlock env s1 =
      { state := s1, calls := [], httpImagePosts := [], halted := false } := by
  unfold gateBlock
  rcases hs : s1.transcription with _ | t
  · rfl
  · dsimp only
    rw [if_pos (h t hs)]

/-- When `transcription` holds a non-sentinel value, the display block
runs generation with it. -/
theorem gateBlock_gen (env : Env) (s1 : SessionState) (t : String)
    (hs : s1.transcription = some t) (hns : t ∉ sentinelStrings) :
    gateBlock env s1 = runGeneration env t s1 [] [] := by
  unfold gateBlock
  rw [hs]
  dsimp only
  rw [if_neg hns]

/-- When the Generate from Text trigger did not fire with a non-empty
prompt, the manual block is the identity. -/
theorem manualBlock_off (env : Env) (ev : Events) (r2 : RunResult)
    (h : ev.generatePressed = false ∨ ev.manualPrompt = "") :
    manualBlock env ev r2 = r2 := by
  unfold manualBlock
  have hm : ¬ (ev.generatePressed = true ∧ ev.manualPrompt ≠ "") := by
    rcases h with h | h <;> simp [h]
  rw [if_neg hm, ite_self]

/-- When the script is not halted and the Generate from Text trigger
fired with a non-empty prompt, the manual block stores the prompt and
runs generation with it. -/
theorem manualBlock_on (env : Env) (ev : Events) (r2 : RunResult)
    (hh : r2.halted = false) (hgen : ev.generatePressed = true)
    (hp : ev.manualPrompt ≠ "") :
    manualBlock env ev r2 =
      runGeneration env ev.manualPrompt
        { r2.state with transcription := some ev.manualPrompt }
        r2.calls r2.httpImagePosts := by
  unfold manualBlock
  rw [if_neg (by simp [hh]), if_pos ⟨hgen, hp⟩]

/-- The manual block either changes nothing or leaves the typed prompt
in `transcription`. -/
theorem manualBlock_cases (env : Env) (ev : Events) (r2 : RunResult) :
    manualBlock env ev r2 = r2 ∨
    (manualBlock env ev r2).state.transcription = some ev.manualPrompt := by
  unfold manualBlock
  split
  · exact Or.inl rfl
  · split
    · exact Or.inr (by rw [runGeneration_transcription])
    · exact Or.inl rfl

/-- Session state reached by one manual-text run for "a red bicycle"
from the empty session under `env0`. -/
def bikeSession : SessionState :=
  (runScript env0
    { recordPressed := false, capture := .deviceFault
      generatePressed := true, manualPrompt := "a red bicycle" } emptySession).state

/-- Session state reached by one manual-text run for "cat" from the
empty session under `env0`. -/
def catSession : SessionState :=
  (runScript env0
    { recordPressed := false, capture := .deviceFault
      generatePressed := true, manualPrompt := "cat" } emptySession).state

/-! ## C1 -/

/-- C1, counterexample.  A manual-text run whose typed prompt is the
sentinel string "API unavailable" stores that sentinel into
`transcription` and still invokes both adapters in the same run: the
manual path (`app.py` lines 169-174) performs no sentinel check, so
the claim that a sentinel-valued stored transcription is never
accompanied by adapter invocations in its run is false. -/
theorem c1_counterexample :
    (runScript env0
      { recordPressed := false, capture := .deviceFault
        generatePressed := true, manualPrompt := "API unavailable" }
      emptySession).state.transcription = some "API unavailable" ∧
    "API unavailable" ∈ sentinelStrings ∧
    (runScript env0
      { recordPressed := false, capture := .deviceFault
        generatePressed := true, manualPrompt := "API unavailable" }
      emptySession).calls =
      [AdapterCall.image "API unavailable", AdapterCall.describe "API unavailable"] := by
  decide

/-! ## C3 -/

/-- C3.  The claim is right about the intent and the code violates it:
`os.remove(temp_audio_path)` (`app.py` line 135) sits inside the `try`
block, so on any exception raised during recording (for example the
5-second `listen` timeout) or during transcription, control jumps to
the `except` clause (lines 136-138) and the temporary WAV file is left
on disk.  Only the fully successful path deletes it. -/
theorem c3_temp_file_left_on_fault :
    (recordHandler CaptureOutcome.deviceFault).tempFileExists = true ∧
    (recordHandler CaptureOutcome.transcribeFault).tempFileExists = true ∧
    (recordHandler (CaptureOutcome.captured SpeechResult.unknownValue)).tempFileExists
      = false ∧
    (recordHandler (CaptureOutcome.captured (SpeechResult.recognized "a cat"))).tempFileExists
      = false := by
  decide

/-! ## C5 -/

/-- C5.  For every image-service response with a non-success status,
`generate_image` returns `None` together with error banners that carry
the status code (`Error: {code}`) and, whenever the body is non-empty,
the response body verbatim (`Details: {body}`); the error report is
never empty, so the outcome is not a bare absent value. -/
theorem c5_non_success_status_reported (k : String) (r : ImageServiceResponse)
    (h : ¬ r.status = 200) :
    (generate_image (some k) (ImageServiceBehavior.response r)).result = none ∧
    ("Error: " ++ toString r.status)
      ∈ (generate_image (some k) (ImageServiceBehavior.response r)).errors ∧
    (r.body ≠ "" → ("Details: " ++ r.body)
      ∈ (generate_image (some k) (ImageServiceBehavior.response r)).errors) ∧
    (generate_image (some k) (ImageServiceBehavior.response r)).errors ≠ [] := by
  unfold generate_image
  dsimp only
  rw [if_neg h]
  refine ⟨rfl, ?_, ?_, ?_⟩
  · simp
  · intro hb
    simp [hb]
  · simp

/-- C5, witness at a mocked 400 response with body "Bad request". -/
theorem c5_witness :
    (generate_image (some "sk")
      (ImageServiceBehavior.response
        { status := 400, body := "Bad request", payload := .decodeError "x" })).result
        = none ∧
    ("Error: " ++ toString (400 : Nat))
      ∈ (generate_image (some "sk")
          (ImageServiceBehavior.response
            { status := 400, body := "Bad request", payload := .decodeError "x" })).errors ∧
    (("Bad request" : String) ≠ "" → ("Details: " ++ "Bad request")
      ∈ (generate_image (some "sk")
          (ImageServiceBehavior.response
            { status := 400, body := "Bad request", payload := .decodeError "x" })).errors) ∧
    (generate_image (some "sk")
      (ImageServiceBehavior.response
        { status := 400, body := "Bad request", payload := .decodeError "x" })).errors ≠ [] :=
  c5_non_success_status_reported "sk"
    { status := 400, body := "Bad request", payload := .decodeError "x" } (by decide)

/-! ## C6 -/

/-- C6.  Every error raised by the description service is caught
inside `get_information`, which is total and returns the fixed
fallback string "Could not retrieve information at this time."; in a
run whose description service raises, that fallback is what is stored
in `info` for display. -/
theorem c6_describe_fallback_on_error :
    (∀ e, get_information (GeminiBehavior.raises e) =
      { errors := ["Error getting information: " ++ e]
        result := "Could not retrieve information at this time." }) ∧
    (runScript envInfoErr
      { recordPressed := false, capture := .deviceFault
        generatePressed := true, manualPrompt := "cat" }
      emptySession).state.info = some "Could not retrieve information at this time." :=
  ⟨fun _ => rfl, by decide⟩

/-! ## C2 -/

/-- C2, counterexample.  Because the script re-runs top to bottom on
every trigger, a manual-text run whose typed prompt equals the
transcription already in session state executes the display-block
generation (`app.py` lines 145-151) and then the manual-block
generation (lines 172-174): the non-empty, non-sentinel transcript
"a red bicycle" gets two image calls and two describe calls in one
run, not exactly one of each.  The starting state is itself reached
from the empty session by one prior manual run. -/
theorem c2_counterexample :
    ("a red bicycle" : String) ≠ "" ∧
    "a red bicycle" ∉ sentinelStrings ∧
    bikeSession.transcription = some "a red bicycle" ∧
    (runScript env0
      { recordPressed := false, capture := .deviceFault
        generatePressed := true, manualPrompt := "a red bicycle" } bikeSession).calls =
      [AdapterCall.image "a red bicycle", AdapterCall.describe "a red bicycle",
       AdapterCall.image "a red bicycle", AdapterCall.describe "a red bicycle"] := by
  decide

/-- C2, amended.  When exactly one generation block fires in the run
and the credentials are available, each adapter is invoked exactly
once, image before description: (1) a voice-trigger run whose capture
recognizes a non-sentinel transcript, with the manual trigger not
firing; (2) a manual-trigger run whose prior stored transcription is
absent or a sentinel.  (A run in which both blocks fire performs one
image and one describe call per block.) -/
theorem c2_single_block_exactly_once (env : Env) (ev : Events) (s0 : SessionState)
    (hg : env.geminiKey = true)
    (hk : (resolveStabilityKey env.stabilitySecrets env.stabilitySidebar).isSome = true) :
    (∀ t, ev.recordPressed = true →
      (ev.generatePressed = false ∨ ev.manualPrompt = "") →
      ev.capture = CaptureOutcome.captured (SpeechResult.recognized t) →
      t ∉ sentinelStrings →
      (runScript env ev s0).calls = [AdapterCall.image t, AdapterCall.describe t]) ∧
    (ev.recordPressed = false → ev.generatePressed = true → ev.manualPrompt ≠ "" →
      (∀ t0, s0.transcription = some t0 → t0 ∈ sentinelStrings) →
      (runScript env ev s0).calls =
        [AdapterCall.image ev.manualPrompt, AdapterCall.describe ev.manualPrompt]) := by
  obtain ⟨k, hk⟩ := Option.isSome_iff_exists.mp hk
  constructor
  · intro t hr hman hc ht
    rw [runScript_eq env ev s0 hg, manualBlock_off env ev _ hman,
      afterRecord_record ev s0 hr, hc]
    have hs : ({ s0 with transcription := some (recordHandler
        (CaptureOutcome.captured (SpeechResult.recognized t))).transcription }
        : SessionState).transcription = some t := rfl
    rw [gateBlock_gen env _ t hs ht]
    obtain ⟨hcalls, hhalt⟩ := runGeneration_calls_some env t _ [] [] k hk
    rw [hcalls]
    rfl
  · intro hr hgen hp hsent
    rw [runScript_eq env ev s0 hg, afterRecord_skip ev s0 hr,
      gateBlock_skip env s0 hsent,
      manualBlock_on env ev _ rfl hgen hp]
    obtain ⟨hcalls, hhalt⟩ := runGeneration_calls_some env ev.manualPrompt _ _ _ k hk
    rw [hcalls]
    rfl

/-- C2, witness: a voice run recognizing "a red bicycle" under `env0`
makes exactly one image call then one describe call. -/
theorem c2_witness :
    (runScript env0
      { recordPressed := true
        capture := .captured (.recognized "a red bicycle")
        generatePressed := false, manualPrompt := "" } emptySession).calls =
      [AdapterCall.image "a red bicycle", AdapterCall.describe "a red bicycle"] :=
  (c2_single_block_exactly_once env0
    { recordPressed := true
      capture := .captured (.recognized "a red bicycle")
      generatePressed := false, manualPrompt := "" } emptySession rfl rfl).1
    "a red bicycle" rfl (Or.inl rfl) rfl (by decide)

/-! ## C8 -/

/-- C8.  Under every environment, a manual-text submission of
"a red bicycle" from the empty session produces exactly the same
adapter-call trace (same adapters, same arguments, same order) as a
voice-triggered run from the empty session whose transcription
recognizes "a red bicycle". -/
theorem c8_manual_equals_voice_trace (env : Env) :
    (runScript env
      { recordPressed := true
        capture := .captured (.recognized "a red bicycle")
        generatePressed := false, manualPrompt := "" } emptySession).calls =
    (runScript env
      { recordPressed := false, capture := .deviceFault
        generatePressed := true, manualPrompt := "a red bicycle" } emptySession).calls := by
  by_cases hg : env.geminiKey = false
  · unfold runScript
    rw [if_pos hg, if_pos hg]
  · have hg2 : env.geminiKey = true := by simpa using hg
    rw [runScript_eq _ _ _ hg2, runScript_eq _ _ _ hg2,
      manualBlock_off _ _ _ (Or.inl rfl),
      afterRecord_record _ _ rfl, afterRecord_skip _ _ rfl,
      gateBlock_skip env emptySession (fun _ h => Option.noConfusion h),
      manualBlock_on _ _ _ rfl rfl (by decide),
      gateBlock_gen env _ "a red bicycle" rfl (by decide)]
    rfl

/-- C1, amended.  In a run in which the Generate from Text trigger
does not fire with a non-empty prompt, a stored transcription equal to
one of the three sentinel strings means neither adapter was invoked in
that run; the manual path performs no sentinel check, so the
restriction to non-manual runs is necessary. -/
theorem c1_voice_sentinel_skips_generation (env : Env) (ev : Events)
    (s0 : SessionState) (t : String)
    (hman : ev.generatePressed = false ∨ ev.manualPrompt = "")
    (ht : (runScript env ev s0).state.transcription = some t)
    (hsent : t ∈ sentinelStrings) :
    (runScript env ev s0).calls = [] := by
  by_cases hg : env.geminiKey = false
  · unfold runScript
    rw [if_pos hg]
  · have hg2 : env.geminiKey = true := by simpa using hg
    rw [runScript_eq env ev s0 hg2, manualBlock_off env ev _ hman] at ht ⊢
    rw [gateBlock_transcription] at ht
    rw [gateBlock_skip env _ (fun u hu => by
      rw [hu] at ht
      exact (Option.some.inj ht) ▸ hsent)]

/-- C1, witness: in a voice run whose speech call fails with a request
error, the stored transcription is the sentinel "API unavailable" and
no adapter is invoked. -/
theorem c1_witness :
    (runScript env0
      { recordPressed := true, capture := .captured .requestError
        generatePressed := false, manualPrompt := "" } emptySession).calls = [] :=
  c1_voice_sentinel_skips_generation env0
    { recordPressed := true, capture := .captured .requestError
      generatePressed := false, manualPrompt := "" } emptySession
    "API unavailable" (Or.inl rfl) (by decide) (by decide)

/-! ## C4 -/

/-- C4, counterexample.  Starting from a state reached by a successful
manual run for "cat" (image and info populated), a voice run whose
recording raises stores the sentinel "Error recording audio. Please
try again." into `transcription` while `image` and `info` retain their
stale populated values: the invariant that `image` and `info` are
populated only when `transcription` holds a non-sentinel value is
false. -/
theorem c4_counterexample :
    (runScript env0
      { recordPressed := true, capture := .deviceFault
        generatePressed := false, manualPrompt := "" } catSession).state.transcription
      = some "Error recording audio. Please try again." ∧
    "Error recording audio. Please try again." ∈ sentinelStrings ∧
    (runScript env0
      { recordPressed := true, capture := .deviceFault
        generatePressed := false, manualPrompt := "" } catSession).state.image ≠ none ∧
    (runScript env0
      { recordPressed := true, capture := .deviceFault
        generatePressed := false, manualPrompt := "" } catSession).state.info ≠ none := by
  decide

/-- C4, amended.  The invariant that survives every pipeline operation
is the weaker one: `image` and `info` are populated only if
`transcription` is populated (holds some value, possibly a sentinel).
The claimed non-error strengthening fails because a later run may
overwrite `transcription` with a sentinel while stale `image` and
`info` values persist, and because the manual path populates all three
fields even when the typed prompt equals a sentinel string. -/
theorem c4_populated_implies_transcription_present (env : Env) (ev : Events)
    (s0 : SessionState)
    (h0 : s0.transcription = none → s0.image = none ∧ s0.info = none) :
    (runScript env ev s0).state.transcription = none →
      (runScript env ev s0).state.image = none ∧
      (runScript env ev s0).state.info = none := by
  intro hnone
  by_cases hg : env.geminiKey = false
  · unfold runScript at hnone ⊢
    rw [if_pos hg] at hnone ⊢
    exact h0 hnone
  · have hg2 : env.geminiKey = true := by simpa using hg
    rw [runScript_eq env ev s0 hg2] at hnone ⊢
    rcases manualBlock_cases env ev (gateBlock env (afterRecord ev s0)) with hm | hm
    · rw [hm] at hnone ⊢
      have h1 : (afterRecord ev s0).transcription = none := by
        rw [← gateBlock_transcription env (afterRecord ev s0)]
        exact hnone
      have h2 : afterRecord ev s0 = s0 := by
        unfold afterRecord at h1 ⊢
        rcases hr : ev.recordPressed with _ | _
        · rw [if_neg (by simp [hr])]
        · rw [if_pos hr] at h1
          exact absurd h1 (by simp)
      rw [h2] at h1 hnone ⊢
      rw [gateBlock_skip env s0 (fun u hu => absurd (h1 ▸ hu) (by simp))]
      exact h0 h1
    · rw [hm] at hnone
      exact absurd hnone (by simp)

/-- C4, witness: a run with no trigger from the empty session leaves
`image` and `info` absent. -/
theorem c4_witness :
    (runScript env0
      { recordPressed := false, capture := .deviceFault
        generatePressed := false, manualPrompt := "" } emptySession).state.image = none ∧
    (runScript env0
      { recordPressed := false, capture := .deviceFault
        generatePressed := false, manualPrompt := "" } emptySession).state.info = none :=
  c4_populated_implies_transcription_present env0
    { recordPressed := false, capture := .deviceFault
      generatePressed := false, manualPrompt := "" } emptySession
    (fun _ => ⟨rfl, rfl⟩) (by decide)

/-! ## C7 -/

/-- C7.  If the image-service credential is absent from both the
secrets store and the interactive sidebar input, no run issues an HTTP
POST to the image service, and any run that reaches the image adapter
halts at the `st.stop()` inside it. -/
theorem c7_missing_credential_halts (env : Env) (ev : Events) (s0 : SessionState)
    (hs : env.stabilitySecrets = none) (hi : env.stabilitySidebar = "") :
    (runScript env ev s0).httpImagePosts = [] ∧
    ((runScript env ev s0).calls ≠ [] → (runScript env ev s0).halted = true) := by
  have hk : resolveStabilityKey env.stabilitySecrets env.stabilitySidebar = none := by
    rw [hs, hi]
    rfl
  by_cases hg : env.geminiKey = false
  · unfold runScript
    rw [if_pos hg]
    exact ⟨rfl, fun h => absurd rfl h⟩
  · have hg2 : env.geminiKey = true := by simpa using hg
    rw [runScript_eq env ev s0 hg2]
    have hgb : (gateBlock env (afterRecord ev s0)).httpImagePosts = [] ∧
        ((gateBlock env (afterRecord ev s0)).calls ≠ [] →
          (gateBlock env (afterRecord ev s0)).halted = true) ∧
        ((gateBlock env (afterRecord ev s0)).halted = false →
          (gateBlock env (afterRecord ev s0)).calls = []) := by
      rcases hs1 : (afterRecord ev s0).transcription with _ | t
      · rw [gateBlock_skip env _ (fun u hu => absurd (hs1 ▸ hu) (by simp))]
        exact ⟨rfl, fun h => absurd rfl h, fun _ => rfl⟩
      · by_cases hmem : t ∈ sentinelStrings
        · rw [gateBlock_skip env _ (fun u hu => by
            rw [hs1] at hu
            exact (Option.some.inj hu) ▸ hmem)]
          exact ⟨rfl, fun h => absurd rfl h, fun _ => rfl⟩
        · rw [gateBlock_gen env _ t hs1 hmem, runGeneration_no_key env t _ [] [] hk]
          exact ⟨rfl, fun _ => rfl, fun h => absurd h (by simp)⟩
    obtain ⟨hp1, hp2, hp3⟩ := hgb
    by_cases hh : (gateBlock env (afterRecord ev s0)).halted = true
    · unfold manualBlock
      rw [if_pos hh]
      exact ⟨hp1, hp2⟩
    · have hh2 : (gateBlock env (afterRecord ev s0)).halted = false := by
        simpa using hh
      unfold manualBlock
      rw [if_neg (by simp [hh2])]
      by_cases hm : ev.generatePressed = true ∧ ev.manualPrompt ≠ ""
      · rw [if_pos hm, runGeneration_no_key env _ _ _ _ hk]
        exact ⟨hp1, fun _ => rfl⟩
      · rw [if_neg hm]
        exact ⟨hp1, hp2⟩

/-- C7, witness: with the credential missing, a manual run for "cat"
issues no POST and halts at the image adapter. -/
theorem c7_witness :
    (runScript envNoKey
      { recordPressed := false, capture := .deviceFault
        generatePressed := true, manualPrompt := "cat" } emptySession).httpImagePosts
      = [] ∧
    (runScript envNoKey
      { recordPressed := false, capture := .deviceFault
        generatePressed := true, manualPrompt := "cat" } emptySession).halted = true :=
  ⟨(c7_missing_credential_halts envNoKey
      { recordPressed := false, capture := .deviceFault
        generatePressed := true, manualPrompt := "cat" } emptySession rfl rfl).1,
   (c7_missing_credential_halts envNoKey
      { recordPressed := false, capture := .deviceFault
        generatePressed := true, manualPrompt := "cat" } emptySession rfl rfl).2
     (by decide)⟩

/-! ## C9 -/

/-- C9.  In a voice-trigger run (with the manual trigger not firing),
the value stored in `transcription` is exactly the handler outcome,
and that outcome takes exactly one of the four claimed forms: the
recognized text, "Could not understand audio" on an unintelligible
parse, "API unavailable" on a failed service call, and "Error
recording audio. Please try again." on any fault raised during
recording or transcription. -/
theorem c9_capture_outcome_classification (env : Env) (ev : Events) (s0 : SessionState)
    (hg : env.geminiKey = true) (hr : ev.recordPressed = true)
    (hman : ev.generatePressed = false ∨ ev.manualPrompt = "") :
    (runScript env ev s0).state.transcription
        = some (recordHandler ev.capture).transcription ∧
    ((∃ t, ev.capture = CaptureOutcome.captured (SpeechResult.recognized t) ∧
        (recordHandler ev.capture).transcription = t) ∨
      (ev.capture = CaptureOutcome.captured SpeechResult.unknownValue ∧
        (recordHandler ev.capture).transcription = "Could not understand audio") ∨
      (ev.capture = CaptureOutcome.captured SpeechResult.requestError ∧
        (recordHandler ev.capture).transcription = "API unavailable") ∨
      ((ev.capture = CaptureOutcome.deviceFault ∨
          ev.capture = CaptureOutcome.transcribeFault) ∧
        (recordHandler ev.capture).transcription
          = "Error recording audio. Please try again.")) := by
  constructor
  · rw [runScript_eq env ev s0 hg, manualBlock_off env ev _ hman,
      gateBlock_transcription, afterRecord_record ev s0 hr]
  · rcases hc : ev.capture with _ | _ | r
    · exact Or.inr (Or.inr (Or.inr ⟨Or.inl rfl, rfl⟩))
    · exact Or.inr (Or.inr (Or.inr ⟨Or.inr rfl, rfl⟩))
    · rcases r with t | _ | _
      · exact Or.inl ⟨t, rfl, rfl⟩
      · exact Or.inr (Or.inl ⟨rfl, rfl⟩)
      · exact Or.inr (Or.inr (Or.inl ⟨rfl, rfl⟩))

/-- C9, witness: a voice run whose speech service cannot parse the
audio stores exactly "Could not understand audio". -/
theorem c9_witness :
    (runScript env0
      { recordPressed := true, capture := .captured .unknownValue
        generatePressed := false, manualPrompt := "" } emptySession).state.transcription
      = some "Could not understand audio" :=
  (c9_capture_outcome_classification env0
    { recordPressed := true, capture := .captured .unknownValue
      generatePressed := false, manualPrompt := "" } emptySession
    rfl rfl (Or.inl rfl)).1

/-! ## C10 -/

/-- C10, counterexample.  With the non-sentinel transcription "cat"
already in session state (reached by a prior manual run), firing the
Generate from Text trigger with an empty text field still invokes both
adapters in the run: the script rerun executes the display block,
which regenerates from the stored transcription.  The claim that an
empty-prompt trigger invokes no adapter and modifies nothing is
false. -/
theorem c10_counterexample :
    catSession.transcription = some "cat" ∧
    (runScript env0
      { recordPressed := false, capture := .deviceFault
        generatePressed := true, manualPrompt := "" } catSession).calls =
      [AdapterCall.image "cat", AdapterCall.describe "cat"] := by
  decide

/-- C10, amended.  When the Generate from Text trigger fires with an
empty text field and the record button did not fire, the manual block
itself does nothing; the whole run invokes no adapter and leaves the
session state unchanged provided the stored transcription is absent or
a sentinel (otherwise the display block still re-invokes both adapters
with the stored transcription). -/
theorem c10_empty_prompt_no_effect (env : Env) (ev : Events) (s0 : SessionState)
    (hp : ev.manualPrompt = "") (hr : ev.recordPressed = false)
    (hsent : ∀ t, s0.transcription = some t → t ∈ sentinelStrings) :
    (runScript env ev s0).calls = [] ∧ (runScript env ev s0).state = s0 := by
  by_cases hg : env.geminiKey = false
  · unfold runScript
    rw [if_pos hg]
    exact ⟨rfl, rfl⟩
  · have hg2 : env.geminiKey = true := by simpa using hg
    rw [runScript_eq env ev s0 hg2, afterRecord_skip ev s0 hr,
      gateBlock_skip env s0 hsent, manualBlock_off env ev _ (Or.inr hp)]
    exact ⟨rfl, rfl⟩

/-- C10, witness: from the empty session, an empty-prompt Generate
from Text trigger makes no adapter call and changes nothing. -/
theorem c10_witness :
    (runScript env0
      { recordPressed := false, capture := .deviceFault
        generatePressed := true, manualPrompt := "" } emptySession).calls = [] ∧
    (runScript env0
      { recordPressed := false, capture := .deviceFault
        generatePressed := true, manualPrompt := "" } emptySession).state
      = emptySession :=
  c10_empty_prompt_no_effect env0
    { recordPressed := false, capture := .deviceFault
      generatePressed := true, manualPrompt := "" } emptySession
    rfl rfl (fun _ h => Option.noConfusion h)
